import Mathlib

/-!
# Verification of the persistence detector (`src/backend/persistence_detector.py`)

This file gives a shallow embedding of the persistence-detection engine:
event normalization (`_flatten_alerts`), sequence matching (`_match_sequence`),
correlation checking (`_check_correlation`), confidence scoring
(`_calculate_confidence`), per-group window scanning (`_detect_pattern`),
seed-pattern initialization (`_initialize_base_patterns`) and pattern learning
(`_learn_new_patterns` / `_extract_pattern`), and proves properties of those
definitions.

Machine representation notes:
* A pandas/JSON string-valued cell is modelled by `PyVal`: a string, Python
  `None`, or a float `NaN` (the two distinct "missing" values that occur in
  the pipeline; `None` comes from `_flatten_alerts`, `NaN` from `pd.read_csv`).
  Python truthiness (`if x:`), `str(x)` rendering and `pd.notna` are modelled
  explicitly, because the source relies on all three.
* Timestamps are rationals (seconds); `total_seconds()` arithmetic is exact
  rational arithmetic.
* Python float arithmetic on confidences is modelled by exact rationals.
-/

namespace PersistenceDetector

/-- A Python cell value as it occurs in the detector's DataFrames and dicts:
a string, `None`, or float `NaN`.  Other scalar types do not occur in the
modelled pipeline. -/
inductive PyVal where
  | vnone
  | vnan
  | vstr (s : String)
deriving DecidableEq, Repr, Inhabited

/-- Python truthiness of a cell: `None` and `""` are falsy, `NaN` and any
non-empty string are truthy. -/
def pyTruthy : PyVal → Bool
  | .vnone => false
  | .vnan => true
  | .vstr s => s != ""

/-- Python `str(x)`: `str(None) = "None"`, `str(nan) = "nan"`. -/
def pyStr : PyVal → String
  | .vnone => "None"
  | .vnan => "nan"
  | .vstr s => s

/-- Python `isinstance(x, str)`. -/
def isStrVal : PyVal → Bool
  | .vstr _ => true
  | _ => false

/-- pandas `notna`: false exactly on `None` and `NaN`. -/
def notna : PyVal → Bool
  | .vstr _ => true
  | _ => false

/-- Lift an optional string (a JSON field that may be missing) to a cell. -/
def pyOfOpt : Option String → PyVal
  | none => .vnone
  | some s => .vstr s

/-- Python `x or y` on two optional strings (`dict.get` results): the first
operand if it is truthy, otherwise the second. -/
def pyOr2 (x y : Option String) : PyVal :=
  if pyTruthy (pyOfOpt x) then pyOfOpt x else pyOfOpt y

/-! ## String helpers (List-Char implementations of the Python operations) -/

/-- `isPrefOf sub l` : `sub` is a prefix of `l`. -/
def isPrefOf : List Char → List Char → Bool
  | [], _ => true
  | _ :: _, [] => false
  | a :: as, b :: bs => a == b && isPrefOf as bs

/-- `isSubOf sub l` : `sub` occurs as a contiguous sublist of `l`
(Python `sub in l` on strings). -/
def isSubOf (sub : List Char) : List Char → Bool
  | [] => isPrefOf sub []
  | c :: rest => isPrefOf sub (c :: rest) || isSubOf sub rest

/-- Python `sub in hay` (substring containment). -/
def containsB (hay sub : String) : Bool :=
  isSubOf sub.toList hay.toList

/-- Python `s.endswith(suffix)`. -/
def endsWithB (s suffix : String) : Bool :=
  isPrefOf suffix.toList.reverse s.toList.reverse

/-- Python `s.lower()` (ASCII). -/
def lowerB (s : String) : String :=
  String.mk (s.toList.map Char.toLower)

/-- Python `s.startswith(pre)`. -/
def startsWithB (s pre : String) : Bool :=
  isPrefOf pre.toList s.toList

/-- Accumulator for `s.split('\\')`. -/
def splitBackslashAux : List Char → List Char → List (List Char)
  | [], cur => [cur.reverse]
  | c :: rest, cur =>
    if c == '\\' then cur.reverse :: splitBackslashAux rest []
    else splitBackslashAux rest (c :: cur)

/-- Python `s.split('\\')`. -/
def splitBackslash (s : String) : List String :=
  (splitBackslashAux s.toList []).map String.mk

/-- Python `s.split('\\')[-1]` (path basename with backslash separators). -/
def lastSeg (s : String) : String :=
  (splitBackslash s).getLastD ""

/-! ## Data model -/

/-- One normalized alert row as consumed by the matcher
(`analyze_daily_alerts` has already converted `timestamp` with
`pd.to_datetime`; we model it as rational seconds). -/
structure Event where
  timestamp : ℚ := 0
  agent_name : PyVal := .vnone
  agent_ip : PyVal := .vnone
  user : PyVal := .vnone
  rule_id : PyVal := .vnone
  rule_level : PyVal := .vnone
  rule_description : PyVal := .vnone
  rule_mitre_id : PyVal := .vnone
  rule_mitre_tactic : PyVal := .vnone
  file_path : PyVal := .vnone
  process_name : PyVal := .vnone
  process_cmdline : PyVal := .vnone
  registry_key : PyVal := .vnone
  registry_value : PyVal := .vnone
  parent_process : PyVal := .vnone
deriving DecidableEq, Repr, Inhabited

/-- One sequence item (`seq_item`) of a pattern: the keys that may be present
in the Python dict.  `event_type` occurs in the seed patterns but is never
consulted by `_match_sequence`. -/
structure Criterion where
  rule_id : Option String := none
  event_type : Option String := none
  process_name : Option String := none
  registry_contains : Option (List String) := none
  path_contains : Option (List String) := none
  file_extension : Option (List String) := none
deriving DecidableEq, Repr, Inhabited

/-- The empty `seq_item` dict (falsy in Python). -/
def emptyCriterion : Criterion := {}

/-- A pattern definition as stored in `patterns_database.json`. -/
structure Pattern where
  name : String := ""
  mitre_id : String := ""
  severity : String := ""
  sequence : List Criterion := []
  correlation : Option String := none
  time_window_minutes : Int := 0
  confidence_base : ℚ := 0
  detection_count : Nat := 0
  false_positive_count : Nat := 0
  last_seen : Option String := none
  learned_from : Option String := none
  learned_date : Option String := none
deriving DecidableEq, Repr, Inhabited

/-- One detection record (the fields consumed by `_learn_new_patterns` /
`_extract_pattern`). -/
structure Detection where
  detection_id : String := ""
  pattern_id : String := ""
  pattern_name : String := ""
  mitre_id : String := ""
  reclassified_severity : String := ""
  confidence : ℚ := 0
  duration_seconds : ℚ := 0
  events : List Event := []
deriving DecidableEq, Repr, Inhabited

/-! ## Sequence matching (`_match_sequence`) -/

/-- Whether one event satisfies one `seq_item`.  Direct translation of the
body of the inner loop of `_match_sequence`: every present key must pass its
check, otherwise the loop `continue`s to the next event.
* `rule_id`: `str(event['rule_id']) != str(seq_item['rule_id'])` rejects.
* `process_name`: the event field must be truthy, a string, and contain the
  criterion string case-insensitively.
* `registry_contains` / `path_contains`: the field must be truthy, a string,
  and contain at least one keyword.
* `file_extension`: `if not event['file_path']: continue`, then
  `str(event['file_path']).endswith(ext)` for some listed extension. -/
def eventMatchesCriterion (c : Criterion) (e : Event) : Bool :=
  (match c.rule_id with
   | none => true
   | some r => pyStr e.rule_id == r) &&
  (match c.process_name with
   | none => true
   | some pn =>
     pyTruthy e.process_name && isStrVal e.process_name &&
       containsB (lowerB (pyStr e.process_name)) (lowerB pn)) &&
  (match c.registry_contains with
   | none => true
   | some kws =>
     pyTruthy e.registry_key && isStrVal e.registry_key &&
       kws.any (fun k => containsB (pyStr e.registry_key) k)) &&
  (match c.path_contains with
   | none => true
   | some kws =>
     pyTruthy e.file_path && isStrVal e.file_path &&
       kws.any (fun k => containsB (pyStr e.file_path) k)) &&
  (match c.file_extension with
   | none => true
   | some exts =>
     pyTruthy e.file_path &&
       exts.any (fun x => endsWithB (pyStr e.file_path) x))

/-- The inner loop of `_match_sequence`: scan the window's events in order and
return the index of the first event satisfying the criterion. -/
def findFirstMatch (c : Criterion) : List Event → Option Nat
  | [] => none
  | e :: rest =>
    if eventMatchesCriterion c e then some 0
    else (findFirstMatch c rest).map (· + 1)

/-- The outer loop of `_match_sequence`: bind each criterion in declaration
order to the first satisfying event of the window; fail as soon as one
criterion finds no event.  Previously bound events stay eligible. -/
def bindSequence (events : List Event) : List Criterion → Option (List Nat)
  | [] => some []
  | c :: rest =>
    match findFirstMatch c events with
    | none => none
    | some i => (bindSequence events rest).map (fun l => i :: l)

/-! ## Correlation checking (`_check_correlation`) -/

/-- `_check_correlation(events, correlation_type, matched_indices)`.  The
`matched_indices` argument is unused in the source and omitted here.  Note
that in the `file_path_in_registry_value` and `file_path_in_command_line`
branches, when the first non-null value is falsy (empty string) the Python
code falls through the inner `if` to the trailing `return True`. -/
def checkCorrelation (events : List Event) (corr : String) : Bool :=
  if corr == "file_path_in_registry_value" then
    let fileEvents := events.filter fun e => notna e.file_path
    let regEvents := events.filter fun e => notna e.registry_value
    if fileEvents.isEmpty || regEvents.isEmpty then false
    else
      let fp := fileEvents.headI.file_path
      let rv := regEvents.headI.registry_value
      if pyTruthy fp && pyTruthy rv then
        containsB (pyStr rv) (lastSeg (pyStr fp))
      else true
  else if corr == "file_path_in_command_line" then
    let fileEvents := events.filter fun e => notna e.file_path
    let cmdEvents := events.filter fun e => notna e.process_cmdline
    if fileEvents.isEmpty || cmdEvents.isEmpty then false
    else
      let fp := fileEvents.headI.file_path
      let cmd := cmdEvents.headI.process_cmdline
      if pyTruthy fp && pyTruthy cmd then
        containsB (pyStr cmd) (pyStr fp)
      else true
  else if corr == "file_path_in_service_path" then
    !(events.filter fun e => notna e.file_path).isEmpty
  else true

/-- `_match_sequence` result (`matched` field): all criteria bound, then the
correlation check if the pattern declares one. -/
def matchSequence (events : List Event) (p : Pattern) : Bool :=
  match bindSequence events p.sequence with
  | none => false
  | some _ =>
    match p.correlation with
    | none => true
    | some corr => checkCorrelation events corr

/-! ## Confidence scoring (`_calculate_confidence`) -/

def suspiciousPaths : List String :=
  ["Temp", "Public", "AppData\\Roaming", "Downloads", "ProgramData"]

def suspiciousParents : List String :=
  ["winword.exe", "excel.exe", "powerpnt.exe", "outlook.exe",
   "acrobat.exe", "chrome.exe", "firefox.exe"]

/-- `(events.iloc[-1]['timestamp'] - events.iloc[0]['timestamp']).total_seconds()`. -/
def durationOf (events : List Event) : ℚ :=
  events.getLastI.timestamp - events.headI.timestamp

/-- The suspicious-path loop: `if event['file_path']:` (truthiness) then any
keyword substring of `str(event['file_path'])`; `break` after the first hit. -/
def hasSuspPath (events : List Event) : Bool :=
  events.any fun e =>
    pyTruthy e.file_path &&
      suspiciousPaths.any (fun s => containsB (pyStr e.file_path) s)

/-- The suspicious-parent loop: `if event['parent_process']:` then any known
parent substring of `str(event['parent_process']).lower()`. -/
def hasSuspParent (events : List Event) : Bool :=
  events.any fun e =>
    pyTruthy e.parent_process &&
      suspiciousParents.any (fun s => containsB (lowerB (pyStr e.parent_process)) s)

/-- The timing-adjustment block of `_calculate_confidence`. -/
def applyDurationBoost (events : List Event) (c : ℚ) : ℚ :=
  if durationOf events < 60 then c + 15/100
  else if durationOf events < 300 then c + 10/100
  else c

/-- The suspicious-path block of `_calculate_confidence`. -/
def applyPathBoost (events : List Event) (c : ℚ) : ℚ :=
  if hasSuspPath events then c + 5/100 else c

/-- The unusual-parent-process block of `_calculate_confidence`. -/
def applyParentBoost (events : List Event) (c : ℚ) : ℚ :=
  if hasSuspParent events then c + 10/100 else c

/-- The pattern-history block of `_calculate_confidence`:
`confidence *= (1 - false_positive_rate * 0.5)` when
`pattern_def['detection_count'] > 0`. -/
def applyHistory (p : Pattern) (c : ℚ) : ℚ :=
  if p.detection_count > 0 then
    c * (1 - ((p.false_positive_count : ℚ) / (p.detection_count : ℚ)) * (1/2))
  else c

/-- Python `min(a, b)` on two rationals. -/
def pyMin (a b : ℚ) : ℚ :=
  if a ≤ b then a else b

lemma pyMin_eq_min (a b : ℚ) : pyMin a b = min a b := by
  unfold pyMin
  split_ifs with h
  · exact (min_eq_left h).symm
  · exact (min_eq_right (le_of_not_le h)).symm

/-- `_calculate_confidence(events, pattern_def, match_result)` (the match
result is not consulted by the source): the four adjustment blocks applied in
order to `confidence_base`, then `return min(confidence, 1.0)`. -/
def calculateConfidence (events : List Event) (p : Pattern) : ℚ :=
  pyMin
    (applyHistory p
      (applyParentBoost events
        (applyPathBoost events
          (applyDurationBoost events p.confidence_base)))) 1

/-! ## Per-group window scan (`_detect_pattern`) -/

/-- The events of the window anchored at the event with timestamp `start`:
`group[(group['timestamp'] >= start) & (group['timestamp'] <= start + tw)]`
with `tw = timedelta(minutes=pattern.time_window_minutes)`. -/
def windowEvents (group : List Event) (start : ℚ) (tw : Int) : List Event :=
  group.filter fun e =>
    decide (start ≤ e.timestamp) && decide (e.timestamp ≤ start + (tw : ℚ) * 60)

/-- The window anchored at index `i` of the (chronologically sorted) group. -/
def windowAt (group : List Event) (i : Nat) (p : Pattern) : List Event :=
  match group.get? i with
  | none => []
  | some e => windowEvents group e.timestamp p.time_window_minutes

/-- The sliding-window loop of `_detect_pattern` for one `(agent, user)`
group, returning the indices at which a detection is recorded.  `fuel`
bounds the iteration count (`range(len(group))`); the loop `break`s after
the first match. -/
def scanAux (group : List Event) (p : Pattern) : Nat → Nat → List Nat
  | 0, _ => []
  | fuel + 1, i =>
    if i < group.length then
      if matchSequence (windowAt group i p) p then [i]
      else scanAux group p fuel (i + 1)
    else []

/-- The window-start indices at which `_detect_pattern` records a detection
for one group (its `for i in range(len(group))` loop with `break`). -/
def detectGroupMatches (group : List Event) (p : Pattern) : List Nat :=
  scanAux group p group.length 0

/-! ## Pattern store and seed patterns (`_initialize_base_patterns`) -/

/-- The in-memory pattern store `self.patterns`: a Python dict modelled as an
association list in insertion order. -/
abbrev Store := List (String × Pattern)

/-- Dict membership / lookup (`pattern_id in self.patterns`,
`self.patterns[pattern_id]`). -/
def storeFind : Store → String → Option Pattern
  | [], _ => none
  | (k, v) :: rest, id => if k = id then some v else storeFind rest id

def hasKey (s : Store) (id : String) : Bool :=
  (storeFind s id).isSome

/-- The keys of the store, in insertion order. -/
def storeKeys (s : Store) : List String :=
  (s : List (String × Pattern)).map Prod.fst

/-- Python dict assignment `self.patterns[id] = p`: overwrite in place if the
key exists, else append. -/
def storeSet (s : Store) (id : String) (p : Pattern) : Store :=
  if hasKey s id then
    (s : List (String × Pattern)).map fun kv => if kv.1 = id then (id, p) else kv
  else (s : List (String × Pattern)) ++ [(id, p)]

/-- `if pattern_id not in self.patterns: self.patterns[pattern_id] = pattern_def`. -/
def insertIfAbsent (s : Store) (id : String) (p : Pattern) : Store :=
  if hasKey s id then s else (s : List (String × Pattern)) ++ [(id, p)]

/-- The six seed (MITRE ATT&CK) patterns of `_initialize_base_patterns`. -/
def basePatterns : List (String × Pattern) :=
  [ ("T1547.001_registry_run",
     { name := "Registry Run Keys Persistence"
       mitre_id := "T1547.001"
       severity := "CRITICAL"
       sequence :=
         [ { rule_id := some "553", event_type := some "file_create" },
           { rule_id := some "18101", event_type := some "registry_modify",
             registry_contains := some ["Run", "RunOnce", "CurrentVersion\\Run"] } ]
       correlation := some "file_path_in_registry_value"
       time_window_minutes := 30
       confidence_base := 8/10
       detection_count := 0
       false_positive_count := 0
       last_seen := none }),
    ("T1053.005_scheduled_task",
     { name := "Scheduled Task/Job - Scheduled Task"
       mitre_id := "T1053.005"
       severity := "CRITICAL"
       sequence :=
         [ { rule_id := some "553", event_type := some "file_create" },
           { process_name := some "schtasks.exe" },
           { rule_id := some "60120", event_type := some "task_created" } ]
       correlation := some "file_path_in_command_line"
       time_window_minutes := 15
       confidence_base := 85/100
       detection_count := 0
       false_positive_count := 0
       last_seen := none }),
    ("T1546.003_wmi_event",
     { name := "Event Triggered Execution - WMI Event Subscription"
       mitre_id := "T1546.003"
       severity := "CRITICAL"
       sequence :=
         [ { process_name := some "wmic.exe" },
           { rule_id := some "61600", event_type := some "wmi_filter" },
           { rule_id := some "61601", event_type := some "wmi_consumer" } ]
       time_window_minutes := 20
       confidence_base := 9/10
       detection_count := 0
       false_positive_count := 0
       last_seen := none }),
    ("T1547.001_startup_folder",
     { name := "Boot or Logon Autostart - Startup Folder"
       mitre_id := "T1547.001"
       severity := "HIGH"
       sequence :=
         [ { rule_id := some "553", event_type := some "file_create",
             path_contains := some ["Startup", "Start Menu\\Programs\\Startup"] } ]
       time_window_minutes := 10
       confidence_base := 7/10
       detection_count := 0
       false_positive_count := 0
       last_seen := none }),
    ("T1547.009_shortcut_modification",
     { name := "Boot or Logon Autostart - Shortcut Modification"
       mitre_id := "T1547.009"
       severity := "HIGH"
       sequence :=
         [ { rule_id := some "550", event_type := some "file_modify",
             file_extension := some [".lnk"] },
           { path_contains := some ["Desktop", "Start Menu", "Quick Launch"] } ]
       time_window_minutes := 15
       confidence_base := 65/100
       detection_count := 0
       false_positive_count := 0
       last_seen := none }),
    ("T1543.003_windows_service",
     { name := "Create or Modify System Process - Windows Service"
       mitre_id := "T1543.003"
       severity := "CRITICAL"
       sequence :=
         [ { rule_id := some "553", event_type := some "file_create" },
           { rule_id := some "60200", event_type := some "service_installed" },
           { rule_id := some "60204", event_type := some "service_started" } ]
       correlation := some "file_path_in_service_path"
       time_window_minutes := 20
       confidence_base := 85/100
       detection_count := 0
       false_positive_count := 0
       last_seen := none }) ]

/-- The merge loop of `_initialize_base_patterns`: each seed is inserted only
if its id is not already present (the subsequent `_save_patterns` call only
persists the store and is not modelled). -/
def initializeBasePatterns (s : Store) : Store :=
  basePatterns.foldl (fun acc kv => insertIfAbsent acc kv.1 kv.2) s

/-! ## Event normalization (`_flatten_alerts`) -/

/-- One raw alert record, restricted to the keys `_flatten_alerts` reads.
`Option String` marks whether the key is present; the `_present` flags give
the Python truthiness of the corresponding nested dict (`if win_data:`,
`if mitre:`, `if syscheck:`).  The list form of the MITRE fields is not
modelled (only the scalar branch). -/
structure RawAlert where
  timestamp : Option String := none
  agent_name : Option String := none
  agent_ip : Option String := none
  rule_id : Option String := none
  rule_level : Option String := none
  rule_description : Option String := none
  mitre_present : Bool := false
  mitre_id : Option String := none
  mitre_tactic : Option String := none
  win_present : Bool := false
  win_user : Option String := none
  win_subjectUserName : Option String := none
  win_targetFilename : Option String := none
  win_image : Option String := none
  win_commandLine : Option String := none
  win_targetObject : Option String := none
  win_details : Option String := none
  win_parentImage : Option String := none
  syscheck_present : Bool := false
  syscheck_path : Option String := none
deriving DecidableEq, Repr, Inhabited

/-- The flat record built for one alert by `_flatten_alerts` (before
`analyze_daily_alerts` parses timestamps); every field is a raw cell. -/
structure FlatRecord where
  timestamp : PyVal := .vnone
  agent_name : PyVal := .vnone
  agent_ip : PyVal := .vnone
  user : PyVal := .vnone
  rule_id : PyVal := .vnone
  rule_level : PyVal := .vnone
  rule_description : PyVal := .vnone
  rule_mitre_id : PyVal := .vnone
  rule_mitre_tactic : PyVal := .vnone
  file_path : PyVal := .vnone
  process_name : PyVal := .vnone
  process_cmdline : PyVal := .vnone
  registry_key : PyVal := .vnone
  registry_value : PyVal := .vnone
  parent_process : PyVal := .vnone
deriving DecidableEq, Repr, Inhabited

/-- `image.split('\\')[-1] if win_data.get('image') else None` (same shape
for `parentImage`). -/
def lastSegOfTruthy (x : Option String) : PyVal :=
  if pyTruthy (pyOfOpt x) then
    match x with
    | some s => .vstr (lastSeg s)
    | none => .vnone
  else .vnone

/-- `_flatten_alerts` applied to one alert record. -/
def flattenAlert (a : RawAlert) : FlatRecord :=
  let base : FlatRecord :=
    { timestamp := pyOfOpt a.timestamp
      agent_name := pyOfOpt a.agent_name
      agent_ip := pyOfOpt a.agent_ip
      rule_id := pyOfOpt a.rule_id
      rule_level := pyOfOpt a.rule_level
      rule_description := pyOfOpt a.rule_description }
  let withMitre :=
    if a.mitre_present then
      { base with
        rule_mitre_id := pyOfOpt a.mitre_id
        rule_mitre_tactic := pyOfOpt a.mitre_tactic }
    else base
  let withWin :=
    if a.win_present then
      { withMitre with
        user := pyOr2 a.win_user a.win_subjectUserName
        file_path := pyOr2 a.win_targetFilename a.win_image
        process_name := lastSegOfTruthy a.win_image
        process_cmdline := pyOfOpt a.win_commandLine
        registry_key := pyOfOpt a.win_targetObject
        registry_value := pyOfOpt a.win_details
        parent_process := lastSegOfTruthy a.win_parentImage }
    else withMitre
  if a.syscheck_present then
    { withWin with file_path := pyOfOpt a.syscheck_path }
  else withWin

/-! ## Pattern learning (`_learn_new_patterns` / `_extract_pattern`) -/

/-- Python `int(q)`: truncation toward zero. -/
def truncQ (q : ℚ) : Int :=
  if 0 ≤ q then ⌊q⌋ else ⌈q⌉

/-- The `seq_item` built from one detection event in `_extract_pattern`. -/
def extractCriterion (e : Event) : Criterion :=
  { rule_id := if pyTruthy e.rule_id then some (pyStr e.rule_id) else none
    process_name :=
      match e.process_name with
      | .vstr s => if s ≠ "" then some s else none
      | _ => none
    registry_contains :=
      match e.registry_key with
      | .vstr s =>
        if s ≠ "" then
          let parts := splitBackslash s
          if parts.length > 2 then some [parts.getD (parts.length - 2) ""]
          else none
        else none
      | _ => none
    path_contains :=
      match e.file_path with
      | .vstr s =>
        if s ≠ "" then
          if containsB s "Startup" then some ["Startup"]
          else if containsB s "Temp" then some ["Temp"]
          else none
        else none
      | _ => none }

/-- The sequence built by `_extract_pattern`: one `seq_item` per event,
dropping empty ones (`if seq_item: sequence.append(seq_item)`). -/
def extractSequence (events : List Event) : List Criterion :=
  events.filterMap fun e =>
    let c := extractCriterion e
    if c = emptyCriterion then none else some c

/-- `_extract_pattern(detection)`; `now` stands for
`datetime.now().isoformat()`. -/
def extractPattern (now : String) (d : Detection) : Option Pattern :=
  if (extractSequence d.events).length < 2 then none
  else some
    { name := "Learned Pattern - " ++ d.pattern_name ++ " Variant"
      mitre_id := d.mitre_id
      severity := d.reclassified_severity
      sequence := extractSequence d.events
      time_window_minutes := truncQ (d.duration_seconds / 60) + 5
      confidence_base := d.confidence * (9/10)
      detection_count := 1
      false_positive_count := 0
      last_seen := some now
      learned_from := some d.detection_id
      learned_date := some now }

/-- `_is_novel_pattern`. -/
def isNovelPattern (d : Detection) : Bool :=
  !(startsWithB d.pattern_id "LEARNED_")

/-- One iteration of the `_learn_new_patterns` loop over a detection; the
accumulator carries the store and the `learned` counter.  `today` stands for
`datetime.now().strftime('%Y%m%d')`. -/
def learnStep (threshold : ℚ) (today now : String)
    (acc : Store × Nat) (d : Detection) : Store × Nat :=
  if threshold ≤ d.confidence then
    if isNovelPattern d then
      match extractPattern now d with
      | some p =>
        (storeSet acc.1 ("LEARNED_" ++ today ++ "_" ++ toString acc.2) p, acc.2 + 1)
      | none => acc
    else acc
  else acc

/-- `_learn_new_patterns`: fold the learning step over the run's detections
(the `_save_patterns` call afterwards only persists the store). -/
def learnNewPatterns (threshold : ℚ) (today now : String)
    (detections : List Detection) (s : Store) : Store :=
  (detections.foldl (learnStep threshold today now) (s, 0)).1

/-! # Theorems -/

/-! ## C1: the confidence formula -/

/-- The confidence formula as the specification states it: the sum of
`confidence_base` and the situational boosts, multiplied by
`(1 - 0.5 * false_positive_count / detection_count)`, clamped to at most 1. -/
def claimedConfidence (events : List Event) (p : Pattern) : ℚ :=
  let boosts :=
    (if durationOf events < 60 then 15/100
     else if durationOf events < 300 then 10/100
     else 0)
    + (if hasSuspPath events then 5/100 else 0)
    + (if hasSuspParent events then 10/100 else 0)
  pyMin ((p.confidence_base + boosts) *
        (1 - (1/2) * ((p.false_positive_count : ℚ) / (p.detection_count : ℚ)))) 1

/-- C1: for every matched window whose pattern has `detection_count > 0`, the
final confidence equals the sum of `confidence_base` and the situational
boosts, multiplied by `(1 - 0.5 * false_positive_count / detection_count)`,
clamped to at most 1.0. -/
theorem calculateConfidence_eq_claimed (events : List Event) (p : Pattern)
    (h : 0 < p.detection_count) :
    calculateConfidence events p = claimedConfidence events p := by
  unfold calculateConfidence claimedConfidence applyHistory applyParentBoost
    applyPathBoost applyDurationBoost
  rw [if_pos h]
  split_ifs <;> (congr 1; ring)

def c1Events : List Event := [{ timestamp := 0 }, { timestamp := 400 }]

def c1Pattern : Pattern :=
  { confidence_base := 8/10, detection_count := 10, false_positive_count := 5 }

/-- C1 witness: the claim's own instance — `detection_count = 10`,
`false_positive_count = 5`, `confidence_base = 0.8`, no boosts — gives 0.6. -/
theorem calculateConfidence_eq_claimed_witness :
    0 < c1Pattern.detection_count
    ∧ calculateConfidence c1Events c1Pattern = claimedConfidence c1Events c1Pattern
    ∧ calculateConfidence c1Events c1Pattern = 3/5 :=
  ⟨by decide, calculateConfidence_eq_claimed c1Events c1Pattern (by decide), by
    norm_num [calculateConfidence, applyHistory, applyParentBoost, applyPathBoost,
      applyDurationBoost, durationOf, hasSuspPath, hasSuspParent, pyMin, c1Events,
      c1Pattern, pyTruthy, suspiciousPaths, suspiciousParents, List.getLastI, List.headI]⟩

/-! ## C5: range of the confidence scorer -/

def c5Events : List Event := [{ timestamp := 0 }, { timestamp := 400 }]

def c5Pattern : Pattern :=
  { confidence_base := 8/10, detection_count := 1, false_positive_count := 10 }

/-- C5 counterexample: a loaded pattern store may carry
`false_positive_count = 10`, `detection_count = 1` (the store is arbitrary
JSON; the program never validates it), and then the scorer returns
`0.8 * (1 - 10 * 0.5) = -3.2`, outside `[0, 1]`. -/
theorem calculateConfidence_not_bounded_below :
    calculateConfidence c5Events c5Pattern < 0 := by
  norm_num [calculateConfidence, applyHistory, applyParentBoost, applyPathBoost,
    applyDurationBoost, durationOf, hasSuspPath, hasSuspParent, pyMin, c5Events,
    c5Pattern, pyTruthy, suspiciousPaths, suspiciousParents, List.getLastI, List.headI]

lemma applyHistory_nonneg (p : Pattern) (c : ℚ) (hc : 0 ≤ c)
    (hfp : p.false_positive_count ≤ 2 * p.detection_count) :
    0 ≤ applyHistory p c := by
  unfold applyHistory
  split_ifs with h
  · have hdc : (0 : ℚ) < (p.detection_count : ℚ) := by exact_mod_cast h
    have hrate : ((p.false_positive_count : ℚ) / (p.detection_count : ℚ)) ≤ 2 := by
      rw [div_le_iff₀ hdc]
      have : (p.false_positive_count : ℚ) ≤ 2 * (p.detection_count : ℚ) := by
        exact_mod_cast hfp
      linarith
    have hq : (0 : ℚ) ≤ (p.false_positive_count : ℚ) / (p.detection_count : ℚ) :=
      div_nonneg (by positivity) (by positivity)
    nlinarith
  · exact hc

/-- C5 amended: the scorer always returns a value `≤ 1`, and returns a value
in `[0, 1]` whenever `confidence_base ≥ 0` and
`false_positive_count ≤ 2 * detection_count` — in particular for every store
the program itself writes, where `false_positive_count` is never incremented
and stays 0. -/
theorem calculateConfidence_bounds (events : List Event) (p : Pattern) :
    calculateConfidence events p ≤ 1
    ∧ (0 ≤ p.confidence_base → p.false_positive_count ≤ 2 * p.detection_count →
        0 ≤ calculateConfidence events p) := by
  constructor
  · exact min_le_right _ _
  · intro hb hfp
    have h1 : 0 ≤ applyDurationBoost events p.confidence_base := by
      unfold applyDurationBoost
      split_ifs <;> linarith
    have h2 : 0 ≤ applyPathBoost events (applyDurationBoost events p.confidence_base) := by
      unfold applyPathBoost
      split_ifs <;> linarith
    have h3 : 0 ≤ applyParentBoost events
        (applyPathBoost events (applyDurationBoost events p.confidence_base)) := by
      unfold applyParentBoost
      split_ifs <;> linarith
    exact le_min (applyHistory_nonneg p _ h3 hfp) zero_le_one

/-! ## C10: unknown correlation names -/

/-- C10: a correlation name other than the three supported ones makes
`_check_correlation` fall through to `return True` on every window, so the
match is accepted exactly as if no correlation had been declared. -/
theorem unknown_correlation_accepts (events : List Event) (p : Pattern) (corr : String)
    (h1 : corr ≠ "file_path_in_registry_value")
    (h2 : corr ≠ "file_path_in_command_line")
    (h3 : corr ≠ "file_path_in_service_path") :
    checkCorrelation events corr = true
    ∧ matchSequence events { p with correlation := some corr }
        = matchSequence events { p with correlation := none } := by
  have hc : checkCorrelation events corr = true := by
    unfold checkCorrelation
    simp [h1, h2, h3]
  refine ⟨hc, ?_⟩
  unfold matchSequence
  cases bindSequence events p.sequence with
  | none => rfl
  | some idxs => simpa using hc

def c10Events : List Event := [{ timestamp := 0 }]

def c10Pattern : Pattern := { sequence := [] }

/-- C10 witness at the correlation name `"totally_unknown"`. -/
theorem unknown_correlation_accepts_witness :
    ("totally_unknown" ≠ "file_path_in_registry_value"
      ∧ "totally_unknown" ≠ "file_path_in_command_line"
      ∧ "totally_unknown" ≠ "file_path_in_service_path")
    ∧ checkCorrelation c10Events "totally_unknown" = true
    ∧ matchSequence c10Events { c10Pattern with correlation := some "totally_unknown" }
        = matchSequence c10Events { c10Pattern with correlation := none } :=
  ⟨⟨by decide, by decide, by decide⟩,
    (unknown_correlation_accepts c10Events c10Pattern "totally_unknown"
      (by decide) (by decide) (by decide)).1,
    (unknown_correlation_accepts c10Events c10Pattern "totally_unknown"
      (by decide) (by decide) (by decide)).2⟩

/-! ## C4: the `file_path_in_registry_value` correlation -/

def c4Events : List Event :=
  [ { file_path := .vstr "C:\\Users\\x\\mal.exe" },
    { registry_value := .vstr "" } ]

/-- C4 counterexample: a window whose first non-null `registry_value` is the
empty string.  The basename `"mal.exe"` is not a substring of `""`, yet the
correlation check accepts: the Python code guards the comparison with
`if file_path and registry_value:` and, when the guard fails, falls through
to the trailing `return True`. -/
theorem correlation_registry_value_counterexample :
    c4Events.filter (fun e => notna e.file_path) ≠ []
    ∧ c4Events.filter (fun e => notna e.registry_value) ≠ []
    ∧ checkCorrelation c4Events "file_path_in_registry_value" = true
    ∧ containsB (pyStr ((c4Events.filter fun e => notna e.registry_value).headI.registry_value))
        (lastSeg (pyStr ((c4Events.filter fun e => notna e.file_path).headI.file_path))) = false :=
  ⟨by decide, by decide, by decide, by decide⟩

/-- C4 amended: for every window with at least one event with non-null
`file_path` and at least one with non-null `registry_value`, the correlation
accepts iff the basename of the first non-null `file_path` is a substring of
the first non-null `registry_value`, **or** one of those two values is the
empty string (Python-falsy), in which case the code falls through to
`return True` and accepts unconditionally.  Moreover, when the correlation
check fails the whole match for the window is rejected: the match outcome is
exactly "criteria all bound AND correlation", with no alternative binding
ever tried. -/
theorem correlation_registry_value_iff (events : List Event)
    (hf : events.filter (fun e => notna e.file_path) ≠ [])
    (hr : events.filter (fun e => notna e.registry_value) ≠ []) :
    (checkCorrelation events "file_path_in_registry_value" = true ↔
      (containsB (pyStr ((events.filter fun e => notna e.registry_value).headI.registry_value))
          (lastSeg (pyStr ((events.filter fun e => notna e.file_path).headI.file_path))) = true
        ∨ pyStr ((events.filter fun e => notna e.file_path).headI.file_path) = ""
        ∨ pyStr ((events.filter fun e => notna e.registry_value).headI.registry_value) = ""))
    ∧ (∀ p : Pattern, p.correlation = some "file_path_in_registry_value" →
        matchSequence events p =
          ((bindSequence events p.sequence).isSome
            && checkCorrelation events "file_path_in_registry_value")) := by
  constructor
  · obtain ⟨x, xs, hx⟩ := List.exists_cons_of_ne_nil hf
    obtain ⟨y, ys, hy⟩ := List.exists_cons_of_ne_nil hr
    have hxmem : x ∈ events.filter (fun e => notna e.file_path) := by
      rw [hx]; exact List.mem_cons_self x xs
    have hymem : y ∈ events.filter (fun e => notna e.registry_value) := by
      rw [hy]; exact List.mem_cons_self y ys
    have hxn : notna x.file_path = true := by
      simpa using (List.mem_filter.mp hxmem).2
    have hyn : notna y.registry_value = true := by
      simpa using (List.mem_filter.mp hymem).2
    obtain ⟨s, hs⟩ : ∃ s, x.file_path = PyVal.vstr s := by
      cases h : x.file_path <;> simp [h, notna] at hxn ⊢
    obtain ⟨t, ht⟩ : ∃ t, y.registry_value = PyVal.vstr t := by
      cases h : y.registry_value <;> simp [h, notna] at hyn ⊢
    unfold checkCorrelation
    rw [hx, hy]
    simp only [List.isEmpty_cons, Bool.false_or, List.headI_cons, hs, ht,
      Bool.false_eq_true, if_false, pyTruthy, pyStr]
    by_cases hse : s = "" <;> by_cases hte : t = "" <;>
      simp [hse, hte]
  · intro p hp
    unfold matchSequence
    cases hb : bindSequence events p.sequence with
    | none => rfl
    | some idxs => rw [hp]; simp

def c4WitEvents : List Event :=
  [ { file_path := .vstr "C:\\Users\\x\\mal.exe" },
    { registry_value := .vstr "run key C:\\Users\\x\\mal.exe data" } ]

/-- C4 witness: a window where the basename does occur in the registry value,
instantiating the amended equivalence. -/
theorem correlation_registry_value_iff_witness :
    c4WitEvents.filter (fun e => notna e.file_path) ≠ []
    ∧ c4WitEvents.filter (fun e => notna e.registry_value) ≠ []
    ∧ (checkCorrelation c4WitEvents "file_path_in_registry_value" = true ↔
        (containsB (pyStr ((c4WitEvents.filter fun e => notna e.registry_value).headI.registry_value))
            (lastSeg (pyStr ((c4WitEvents.filter fun e => notna e.file_path).headI.file_path))) = true
          ∨ pyStr ((c4WitEvents.filter fun e => notna e.file_path).headI.file_path) = ""
          ∨ pyStr ((c4WitEvents.filter fun e => notna e.registry_value).headI.registry_value) = "")) :=
  ⟨by decide, by decide,
    (correlation_registry_value_iff c4WitEvents (by decide) (by decide)).1⟩

/-! ## C3: at most one detection per group/pattern, earliest window -/

lemma scanAux_spec (group : List Event) (p : Pattern) :
    ∀ fuel i, group.length ≤ i + fuel →
      (scanAux group p fuel i).length ≤ 1
      ∧ (∀ x ∈ scanAux group p fuel i,
          i ≤ x ∧ x < group.length
          ∧ matchSequence (windowAt group x p) p = true
          ∧ ∀ j, i ≤ j → j < x → matchSequence (windowAt group j p) p = false)
      ∧ (∀ x, i ≤ x → x < group.length →
          matchSequence (windowAt group x p) p = true →
          scanAux group p fuel i ≠ []) := by
  intro fuel
  induction fuel with
  | zero =>
    intro i hlen
    refine ⟨by simp [scanAux], ?_, ?_⟩
    · intro x hx
      simp [scanAux] at hx
    · intro x hix hxlen _
      exact absurd hxlen (by omega)
  | succ fuel ih =>
    intro i hlen
    by_cases hi : i < group.length
    · by_cases hm : matchSequence (windowAt group i p) p = true
      · have hs : scanAux group p (fuel + 1) i = [i] := by
          simp [scanAux, hi, hm]
        refine ⟨by simp [hs], ?_, ?_⟩
        · intro x hx
          rw [hs] at hx
          simp at hx
          rw [hx]
          exact ⟨le_refl i, hi, hm, fun j hij hji => absurd hji (by omega)⟩
        · intro x _ _ _
          simp [hs]
      · have hm2 : matchSequence (windowAt group i p) p = false := by
          cases h : matchSequence (windowAt group i p) p
          · rfl
          · exact absurd h hm
        have hs : scanAux group p (fuel + 1) i = scanAux group p fuel (i + 1) := by
          simp [scanAux, hi, hm]
        obtain ⟨ih1, ih2, ih3⟩ := ih (i + 1) (by omega)
        refine ⟨by rw [hs]; exact ih1, ?_, ?_⟩
        · intro x hx
          rw [hs] at hx
          obtain ⟨h1, h2, h3, h4⟩ := ih2 x hx
          refine ⟨by omega, h2, h3, ?_⟩
          intro j hij hjx
          by_cases hji : j = i
          · subst hji
            exact hm2
          · exact h4 j (by omega) hjx
        · intro x hix hxlen hxm
          rw [hs]
          have hxi : i + 1 ≤ x := by
            by_cases hxe : x = i
            · subst hxe
              rw [hm2] at hxm
              exact absurd hxm (by decide)
            · omega
          exact ih3 x hxi hxlen hxm
    · have hs : scanAux group p (fuel + 1) i = [] := by
        simp [scanAux, hi]
      refine ⟨by simp [hs], by simp [hs], ?_⟩
      intro x hix hxlen _
      exact absurd hxlen (by omega)

/-- C3: for every pattern and every (chronologically sorted) `(agent, user)`
group, the per-group scan of `_detect_pattern` records at most one detection,
the detection it records is at the earliest window start whose window
satisfies the pattern, and once a match is found no later window is scanned
(every recorded index is minimal among matching indices, and the scan
short-circuits to a singleton). -/
theorem detect_group_at_most_one (group : List Event) (p : Pattern) :
    (detectGroupMatches group p).length ≤ 1
    ∧ (∀ x ∈ detectGroupMatches group p,
        x < group.length
        ∧ matchSequence (windowAt group x p) p = true
        ∧ ∀ j < x, matchSequence (windowAt group j p) p = false)
    ∧ ((∃ x, x < group.length ∧ matchSequence (windowAt group x p) p = true) →
        detectGroupMatches group p ≠ []) := by
  unfold detectGroupMatches
  obtain ⟨h1, h2, h3⟩ := scanAux_spec group p group.length 0 (by omega)
  refine ⟨h1, ?_, ?_⟩
  · intro x hx
    obtain ⟨_, hb, hc, hd⟩ := h2 x hx
    exact ⟨hb, hc, fun j hj => hd j (Nat.zero_le j) hj⟩
  · rintro ⟨x, hxl, hxm⟩
    exact h3 x (Nat.zero_le x) hxl hxm

/-! ## C7: first-fit criterion binding with event reuse -/

lemma eq_false_of_ne_true {b : Bool} (h : ¬ b = true) : b = false := by
  cases b
  · rfl
  · exact absurd rfl h

lemma findFirstMatch_isSome_iff (c : Criterion) (events : List Event) :
    (findFirstMatch c events).isSome = true ↔
      ∃ e ∈ events, eventMatchesCriterion c e = true := by
  induction events with
  | nil => simp [findFirstMatch]
  | cons e rest ih =>
    unfold findFirstMatch
    by_cases h : eventMatchesCriterion c e = true
    · simp [h]
    · simp [h, ih, eq_false_of_ne_true h]

lemma findFirstMatch_spec (c : Criterion) (events : List Event) :
    ∀ i, findFirstMatch c events = some i →
      (∃ e, events.get? i = some e ∧ eventMatchesCriterion c e = true)
      ∧ ∀ j e', j < i → events.get? j = some e' →
          eventMatchesCriterion c e' = false := by
  induction events with
  | nil =>
    intro i h
    simp [findFirstMatch] at h
  | cons e rest ih =>
    intro i h
    unfold findFirstMatch at h
    by_cases hm : eventMatchesCriterion c e = true
    · rw [if_pos hm] at h
      have hi : i = 0 := by
        injection h with h2
        exact h2.symm
      subst hi
      refine ⟨⟨e, rfl, hm⟩, ?_⟩
      intro j e' hj _
      exact absurd hj (by omega)
    · rw [if_neg hm] at h
      obtain ⟨i0, hi0, hi⟩ : ∃ i0, findFirstMatch c rest = some i0 ∧ i = i0 + 1 := by
        cases hr : findFirstMatch c rest with
        | none =>
          rw [hr] at h
          simp at h
        | some k =>
          rw [hr] at h
          simp at h
          exact ⟨k, rfl, h.symm⟩
      subst hi
      obtain ⟨⟨e1, he1, hm1⟩, hmin⟩ := ih i0 hi0
      refine ⟨⟨e1, by simpa using he1, hm1⟩, ?_⟩
      intro j e' hj hget
      cases j with
      | zero =>
        simp at hget
        rw [← hget]
        exact eq_false_of_ne_true hm
      | succ j0 =>
        exact hmin j0 e' (by omega) (by simpa using hget)

lemma bindSequence_isSome_iff (events : List Event) (seq : List Criterion) :
    (bindSequence events seq).isSome = true ↔
      ∀ c ∈ seq, ∃ e ∈ events, eventMatchesCriterion c e = true := by
  induction seq with
  | nil => simp [bindSequence]
  | cons c rest ih =>
    constructor
    · intro h c2 hc2
      unfold bindSequence at h
      cases hf : findFirstMatch c events with
      | none =>
        rw [hf] at h
        simp at h
      | some i =>
        rw [hf] at h
        rcases List.mem_cons.mp hc2 with rfl | hmem
        · rw [← findFirstMatch_isSome_iff]
          simp [hf]
        · refine (ih.mp ?_) c2 hmem
          cases hb : bindSequence events rest with
          | none =>
            rw [hb] at h
            simp at h
          | some l => simp
    · intro h
      unfold bindSequence
      have hc := h c (List.mem_cons_self c rest)
      rw [← findFirstMatch_isSome_iff] at hc
      cases hf : findFirstMatch c events with
      | none =>
        rw [hf] at hc
        simp at hc
      | some i =>
        have hrest : (bindSequence events rest).isSome = true :=
          ih.mpr fun c2 hc2 => h c2 (List.mem_cons_of_mem c hc2)
        cases hb : bindSequence events rest with
        | none =>
          rw [hb] at hrest
          simp at hrest
        | some l => simp [hb]

lemma bindSequence_eq (events : List Event) (seq : List Criterion) (idxs : List Nat) :
    bindSequence events seq = some idxs →
      idxs.length = seq.length
      ∧ ∀ k, (hk : k < seq.length) →
          idxs.get? k = findFirstMatch (seq.get ⟨k, hk⟩) events := by
  induction seq generalizing idxs with
  | nil =>
    intro h
    simp [bindSequence] at h
    subst h
    refine ⟨rfl, ?_⟩
    intro k hk
    exact absurd hk (by simp)
  | cons c rest ih =>
    intro h
    unfold bindSequence at h
    cases hf : findFirstMatch c events with
    | none =>
      rw [hf] at h
      simp at h
    | some i =>
      rw [hf] at h
      cases hb : bindSequence events rest with
      | none =>
        rw [hb] at h
        simp at h
      | some l =>
        rw [hb] at h
        simp at h
        obtain ⟨hlen, hk⟩ := ih l hb
        rw [← h]
        refine ⟨by simp [hlen], ?_⟩
        intro k hkk
        cases k with
        | zero => simp [hf]
        | succ k0 => simpa using hk k0 (by simpa using hkk)

/-- C7: criteria are tested in declaration order, each binds to the
chronologically first event of the window that satisfies it, independently of
what earlier criteria bound (so an already-bound event remains eligible for
reuse), and the sequence binds exactly when every criterion finds at least
one satisfying event; for a pattern with no declared correlation this is
exactly when the match succeeds. -/
theorem sequence_matching_first_fit (events : List Event) (seq : List Criterion) :
    ((bindSequence events seq).isSome = true ↔
      ∀ c ∈ seq, ∃ e ∈ events, eventMatchesCriterion c e = true)
    ∧ (∀ idxs, bindSequence events seq = some idxs →
        idxs.length = seq.length
        ∧ ∀ k, (hk : k < seq.length) →
            idxs.get? k = findFirstMatch (seq.get ⟨k, hk⟩) events)
    ∧ (∀ c i, findFirstMatch c events = some i →
        (∃ e, events.get? i = some e ∧ eventMatchesCriterion c e = true)
        ∧ ∀ j e', j < i → events.get? j = some e' →
            eventMatchesCriterion c e' = false)
    ∧ (∀ p : Pattern, p.sequence = seq → p.correlation = none →
        (matchSequence events p = true ↔
          ∀ c ∈ seq, ∃ e ∈ events, eventMatchesCriterion c e = true)) := by
  refine ⟨bindSequence_isSome_iff events seq,
    fun idxs => bindSequence_eq events seq idxs,
    fun c i => findFirstMatch_spec c events i,
    ?_⟩
  intro p hseq hcorr
  rw [← bindSequence_isSome_iff]
  unfold matchSequence
  rw [hseq, hcorr]
  cases bindSequence events seq with
  | none => simp
  | some l => simp

/-! ## C8: criteria on absent fields -/

def c8Criterion : Criterion := { rule_id := some "nan" }

def c8Event : Event := { rule_id := .vnan }

/-- C8 counterexample: the `rule_id` check compares `str()` renderings, so a
criterion with `rule_id = "nan"` *does* match an event whose `rule_id` is
absent (`NaN`) — `str(nan) = 'nan'`.  Such criteria are produced by the
program itself: `_extract_pattern` stringifies a truthy `NaN` `rule_id` into
the criterion value `"nan"`. -/
theorem absent_rule_id_criterion_matches :
    notna c8Event.rule_id = false
    ∧ c8Criterion.rule_id.isSome = true
    ∧ eventMatchesCriterion c8Criterion c8Event = true
    ∧ (extractCriterion { rule_id := .vnan }).rule_id = some "nan" :=
  ⟨by decide, by decide, by decide, by decide⟩

/-- C8 amended: a criterion requiring an absent (`None`/`NaN`) or non-string
field never matches for the kinds `process_name`, `registry_contains` and
`path_contains`; a `file_extension` criterion never matches a `None`
`file_path` and matches a `NaN` `file_path` only through an extension that is
a suffix of the string `"nan"`; a `rule_id` criterion matches an absent
`rule_id` only when its comparison value is the `str()` rendering of the
absent value (`"None"` or `"nan"`).  Matching is total, so sequence matching
completes without error. -/
theorem absent_field_no_match (c : Criterion) (e : Event) :
    (c.process_name.isSome = true →
      (e.process_name = PyVal.vnone ∨ e.process_name = PyVal.vnan) →
      eventMatchesCriterion c e = false)
    ∧ (c.registry_contains.isSome = true →
      (e.registry_key = PyVal.vnone ∨ e.registry_key = PyVal.vnan) →
      eventMatchesCriterion c e = false)
    ∧ (c.path_contains.isSome = true →
      (e.file_path = PyVal.vnone ∨ e.file_path = PyVal.vnan) →
      eventMatchesCriterion c e = false)
    ∧ (c.file_extension.isSome = true → e.file_path = PyVal.vnone →
      eventMatchesCriterion c e = false)
    ∧ (∀ exts, c.file_extension = some exts → e.file_path = PyVal.vnan →
      (∀ x ∈ exts, endsWithB "nan" x = false) →
      eventMatchesCriterion c e = false)
    ∧ (∀ r, c.rule_id = some r →
      ((e.rule_id = PyVal.vnone ∧ r ≠ "None") ∨ (e.rule_id = PyVal.vnan ∧ r ≠ "nan")) →
      eventMatchesCriterion c e = false) := by
  refine ⟨?_, ?_, ?_, ?_, ?_, ?_⟩
  · intro h1 h2
    obtain ⟨pn, hpn⟩ := Option.isSome_iff_exists.mp h1
    rcases h2 with h2 | h2 <;>
      simp [eventMatchesCriterion, hpn, h2, pyTruthy, isStrVal]
  · intro h1 h2
    obtain ⟨kws, hk⟩ := Option.isSome_iff_exists.mp h1
    rcases h2 with h2 | h2 <;>
      simp [eventMatchesCriterion, hk, h2, pyTruthy, isStrVal]
  · intro h1 h2
    obtain ⟨kws, hk⟩ := Option.isSome_iff_exists.mp h1
    rcases h2 with h2 | h2 <;>
      simp [eventMatchesCriterion, hk, h2, pyTruthy, isStrVal]
  · intro h1 h2
    obtain ⟨exts, hx⟩ := Option.isSome_iff_exists.mp h1
    simp [eventMatchesCriterion, hx, h2, pyTruthy]
  · intro exts hx h2 hall
    have hany : exts.any (fun x => endsWithB "nan" x) = false :=
      List.any_eq_false.mpr fun x hxm => by simp [hall x hxm]
    simp [eventMatchesCriterion, hx, h2, pyTruthy, pyStr, hany]
  · intro r hr h2
    rcases h2 with ⟨h2, hne⟩ | ⟨h2, hne⟩
    · have hb : (pyStr e.rule_id == r) = false := by
        rw [h2]
        exact beq_eq_false_iff_ne.mpr fun hh => hne hh.symm
      simp [eventMatchesCriterion, hr, hb]
    · have hb : (pyStr e.rule_id == r) = false := by
        rw [h2]
        exact beq_eq_false_iff_ne.mpr fun hh => hne hh.symm
      simp [eventMatchesCriterion, hr, hb]

/-! ## C9: idempotence of seed-pattern initialization -/

lemma storeFind_append_of_found (s t : Store) (id : String) (p : Pattern)
    (h : storeFind s id = some p) : storeFind (s ++ t) id = some p := by
  induction s with
  | nil => simp [storeFind] at h
  | cons kv rest ih =>
    obtain ⟨k, v⟩ := kv
    simp only [List.cons_append, storeFind] at h ⊢
    by_cases hk : k = id
    · rw [if_pos hk] at h ⊢
      exact h
    · rw [if_neg hk] at h ⊢
      exact ih h

lemma storeFind_append_of_none (s t : Store) (id : String)
    (h : storeFind s id = none) : storeFind (s ++ t) id = storeFind t id := by
  induction s with
  | nil => simp
  | cons kv rest ih =>
    obtain ⟨k, v⟩ := kv
    simp only [storeFind] at h
    by_cases hk : k = id
    · rw [if_pos hk] at h
      exact absurd h (by simp)
    · rw [if_neg hk] at h
      show storeFind ((k, v) :: (rest ++ t)) id = storeFind t id
      simp only [storeFind]
      rw [if_neg hk]
      exact ih h

lemma storeFind_eq_none_of_not_hasKey (s : Store) (id : String)
    (h : ¬ hasKey s id = true) : storeFind s id = none := by
  unfold hasKey at h
  cases hf : storeFind s id with
  | none => rfl
  | some q =>
    rw [hf] at h
    exact absurd rfl h

lemma storeFind_insertIfAbsent_of_found (s : Store) (id id2 : String)
    (p p2 : Pattern) (h : storeFind s id = some p) :
    storeFind (insertIfAbsent s id2 p2) id = some p := by
  unfold insertIfAbsent
  split_ifs
  · exact h
  · exact storeFind_append_of_found s [(id2, p2)] id p h

lemma hasKey_insertIfAbsent_self (s : Store) (id : String) (p : Pattern) :
    hasKey (insertIfAbsent s id p) id = true := by
  unfold insertIfAbsent
  split_ifs with hk
  · exact hk
  · have hn := storeFind_eq_none_of_not_hasKey s id hk
    unfold hasKey
    rw [storeFind_append_of_none s [(id, p)] id hn]
    simp [storeFind]

lemma insertIfAbsent_of_hasKey (s : Store) (id : String) (p : Pattern)
    (h : hasKey s id = true) : insertIfAbsent s id p = s := by
  unfold insertIfAbsent
  rw [if_pos h]

lemma foldl_insert_find (l : List (String × Pattern)) :
    ∀ (s : Store) (id : String) (p : Pattern), storeFind s id = some p →
      storeFind (l.foldl (fun acc kv => insertIfAbsent acc kv.1 kv.2) s) id = some p := by
  induction l with
  | nil =>
    intro s id p h
    simpa using h
  | cons kv rest ih =>
    intro s id p h
    simp only [List.foldl_cons]
    exact ih _ id p (storeFind_insertIfAbsent_of_found s id kv.1 p kv.2 h)

lemma foldl_insert_hasKey_mono (l : List (String × Pattern)) (s : Store) (id : String)
    (h : hasKey s id = true) :
    hasKey (l.foldl (fun acc kv => insertIfAbsent acc kv.1 kv.2) s) id = true := by
  unfold hasKey at h ⊢
  cases hf : storeFind s id with
  | none =>
    rw [hf] at h
    exact absurd h (by simp)
  | some q =>
    rw [foldl_insert_find l s id q hf]
    rfl

lemma foldl_insert_mem_hasKey (l : List (String × Pattern)) :
    ∀ (s : Store) (kv : String × Pattern), kv ∈ l →
      hasKey (l.foldl (fun acc kv => insertIfAbsent acc kv.1 kv.2) s) kv.1 = true := by
  induction l with
  | nil =>
    intro s kv hkv
    simp at hkv
  | cons a rest ih =>
    intro s kv hkv
    simp only [List.foldl_cons]
    rcases List.mem_cons.mp hkv with rfl | hmem
    · exact foldl_insert_hasKey_mono rest _ kv.1 (hasKey_insertIfAbsent_self s kv.1 kv.2)
    · exact ih _ kv hmem

lemma foldl_insert_noop (l : List (String × Pattern)) :
    ∀ s : Store, (∀ kv ∈ l, hasKey s kv.1 = true) →
      l.foldl (fun acc kv => insertIfAbsent acc kv.1 kv.2) s = s := by
  induction l with
  | nil =>
    intro s _
    rfl
  | cons a rest ih =>
    intro s h
    simp only [List.foldl_cons]
    rw [insertIfAbsent_of_hasKey s a.1 a.2 (h a (List.mem_cons_self a rest))]
    exact ih s fun kv hkv => h kv (List.mem_cons_of_mem a hkv)

lemma not_mem_keys_of_not_hasKey (id : String) :
    ∀ s : Store, ¬ hasKey s id = true → id ∉ storeKeys s := by
  intro s
  induction s with
  | nil =>
    intro _
    simp [storeKeys]
  | cons kv rest ih =>
    obtain ⟨k, v⟩ := kv
    intro h
    have hn := storeFind_eq_none_of_not_hasKey _ id h
    simp only [storeFind] at hn
    by_cases hk : k = id
    · rw [if_pos hk] at hn
      exact absurd hn (by simp)
    · rw [if_neg hk] at hn
      have hr : id ∉ storeKeys rest := by
        apply ih
        unfold hasKey
        rw [hn]
        simp
      simp only [storeKeys, List.map_cons]
      intro hmem
      rcases List.mem_cons.mp hmem with heq | hmem2
      · exact hk heq.symm
      · exact hr hmem2

lemma nodup_keys_insertIfAbsent (s : Store) (id : String) (p : Pattern)
    (h : (storeKeys s).Nodup) : (storeKeys (insertIfAbsent s id p)).Nodup := by
  unfold insertIfAbsent
  split_ifs with hk
  · exact h
  · have hnm : id ∉ storeKeys s := not_mem_keys_of_not_hasKey id s hk
    have hkeys : storeKeys (s ++ [(id, p)]) = storeKeys s ++ [id] := by
      simp [storeKeys]
    rw [hkeys, List.nodup_append]
    refine ⟨h, List.nodup_singleton id, ?_⟩
    intro a ha hb
    simp at hb
    rw [hb] at ha
    exact hnm ha

lemma foldl_insert_nodup (l : List (String × Pattern)) :
    ∀ s : Store, (storeKeys s).Nodup →
      (storeKeys (l.foldl (fun acc kv => insertIfAbsent acc kv.1 kv.2) s)).Nodup := by
  induction l with
  | nil =>
    intro s h
    simpa using h
  | cons a rest ih =>
    intro s h
    simp only [List.foldl_cons]
    exact ih _ (nodup_keys_insertIfAbsent s a.1 a.2 h)

/-- C9: the seed-pattern initializer is idempotent — running it twice yields
the same store as running it once — and it never overwrites (lookup of any
pre-existing id is unchanged) nor duplicates (distinctness of ids is
preserved) a pre-existing pattern. -/
theorem initializeBasePatterns_idempotent (s : Store) (id : String) (p : Pattern)
    (hfound : storeFind s id = some p)
    (hnodup : (storeKeys s).Nodup) :
    initializeBasePatterns (initializeBasePatterns s) = initializeBasePatterns s
    ∧ storeFind (initializeBasePatterns s) id = some p
    ∧ (storeKeys (initializeBasePatterns s)).Nodup := by
  refine ⟨?_, ?_, ?_⟩
  · unfold initializeBasePatterns
    exact foldl_insert_noop basePatterns _ fun kv hkv =>
      foldl_insert_mem_hasKey basePatterns s kv hkv
  · exact foldl_insert_find basePatterns s id p hfound
  · exact foldl_insert_nodup basePatterns s hnodup

def c9Pattern : Pattern := { name := "existing wmi pattern" }

def c9Store : Store := [("T1546.003_wmi_event", c9Pattern)]

/-- C9 witness: a store already holding a pattern under a seed id; the
initializer keeps it unchanged, stays idempotent and key-distinct. -/
theorem initializeBasePatterns_idempotent_witness :
    storeFind c9Store "T1546.003_wmi_event" = some c9Pattern
    ∧ (storeKeys c9Store).Nodup
    ∧ initializeBasePatterns (initializeBasePatterns c9Store) = initializeBasePatterns c9Store
    ∧ storeFind (initializeBasePatterns c9Store) "T1546.003_wmi_event" = some c9Pattern
    ∧ (storeKeys (initializeBasePatterns c9Store)).Nodup :=
  ⟨rfl, by decide,
    (initializeBasePatterns_idempotent c9Store "T1546.003_wmi_event" c9Pattern rfl (by decide)).1,
    (initializeBasePatterns_idempotent c9Store "T1546.003_wmi_event" c9Pattern rfl (by decide)).2.1,
    (initializeBasePatterns_idempotent c9Store "T1546.003_wmi_event" c9Pattern rfl (by decide)).2.2⟩

/-! ## C2: pattern learning from high-confidence detections -/

lemma truncQ_eq_floor (q : ℚ) (h : 0 ≤ q) : truncQ q = ⌊q⌋ := by
  unfold truncQ
  rw [if_pos h]

/-- C2: a detection with `confidence >= learning_threshold` whose pattern id
does not begin with `LEARNED_` produces, when at least 2 criteria are
extractable, exactly one new pattern stored under the fresh learned id, with
`confidence_base = confidence * 0.9`,
`time_window_minutes = floor(duration_seconds / 60) + 5`,
`detection_count = 1` and `false_positive_count = 0`; with fewer than 2
extractable criteria it produces nothing. -/
theorem learn_step_behavior (threshold : ℚ) (today now : String) (s : Store) (k : Nat)
    (d : Detection)
    (hconf : threshold ≤ d.confidence)
    (hnovel : startsWithB d.pattern_id "LEARNED_" = false)
    (hdur : 0 ≤ d.duration_seconds) :
    (2 ≤ (extractSequence d.events).length →
      ∃ p : Pattern,
        learnStep threshold today now (s, k) d
          = (storeSet s ("LEARNED_" ++ today ++ "_" ++ toString k) p, k + 1)
        ∧ p.confidence_base = d.confidence * (9/10)
        ∧ p.time_window_minutes = ⌊d.duration_seconds / 60⌋ + 5
        ∧ p.detection_count = 1
        ∧ p.false_positive_count = 0
        ∧ p.sequence = extractSequence d.events
        ∧ (hasKey s ("LEARNED_" ++ today ++ "_" ++ toString k) = false →
            (storeSet s ("LEARNED_" ++ today ++ "_" ++ toString k) p).length
              = s.length + 1))
    ∧ ((extractSequence d.events).length < 2 →
        learnStep threshold today now (s, k) d = (s, k)) := by
  have hn : isNovelPattern d = true := by
    unfold isNovelPattern
    rw [hnovel]
    rfl
  constructor
  · intro h2
    have hne : ¬ (extractSequence d.events).length < 2 := by omega
    have hp : extractPattern now d = some
        { name := "Learned Pattern - " ++ d.pattern_name ++ " Variant"
          mitre_id := d.mitre_id
          severity := d.reclassified_severity
          sequence := extractSequence d.events
          time_window_minutes := truncQ (d.duration_seconds / 60) + 5
          confidence_base := d.confidence * (9/10)
          detection_count := 1
          false_positive_count := 0
          last_seen := some now
          learned_from := some d.detection_id
          learned_date := some now } := by
      unfold extractPattern
      rw [if_neg hne]
    refine ⟨{ name := "Learned Pattern - " ++ d.pattern_name ++ " Variant"
              mitre_id := d.mitre_id
              severity := d.reclassified_severity
              sequence := extractSequence d.events
              time_window_minutes := truncQ (d.duration_seconds / 60) + 5
              confidence_base := d.confidence * (9/10)
              detection_count := 1
              false_positive_count := 0
              last_seen := some now
              learned_from := some d.detection_id
              learned_date := some now }, ?_, rfl, ?_, rfl, rfl, rfl, ?_⟩
    · unfold learnStep
      rw [if_pos hconf, hn]
      simp only [if_true]
      rw [hp]
    · show truncQ (d.duration_seconds / 60) + 5 = ⌊d.duration_seconds / 60⌋ + 5
      rw [truncQ_eq_floor _ (div_nonneg hdur (by norm_num))]
    · intro hnk
      unfold storeSet
      rw [hnk]
      simp
  · intro h2
    have hex : extractPattern now d = none := by
      unfold extractPattern
      rw [if_pos h2]
    unfold learnStep
    rw [if_pos hconf, hn]
    simp only [if_true]
    rw [hex]

def c2Detection : Detection :=
  { detection_id := "abc123"
    pattern_id := "T1053.005_scheduled_task"
    pattern_name := "Scheduled Task/Job - Scheduled Task"
    mitre_id := "T1053.005"
    reclassified_severity := "CRITICAL"
    confidence := 92/100
    duration_seconds := 125
    events := [ { rule_id := .vstr "553", file_path := .vstr "C:\\Temp\\a.exe" },
                { rule_id := .vstr "18101", registry_key := .vstr "HKLM\\Soft\\Run\\v" },
                { process_name := .vstr "schtasks.exe" } ] }

/-- C2 witness: the spec's Scenario 4 shape — a detection with confidence
0.92 above threshold 0.75 and 3 extractable criteria. -/
theorem learn_step_behavior_witness :
    ((75/100 : ℚ) ≤ c2Detection.confidence
      ∧ startsWithB c2Detection.pattern_id "LEARNED_" = false
      ∧ (0 : ℚ) ≤ c2Detection.duration_seconds
      ∧ 2 ≤ (extractSequence c2Detection.events).length)
    ∧ ((2 ≤ (extractSequence c2Detection.events).length →
        ∃ p : Pattern,
          learnStep (75/100) "20260101" "NOW" ([], 0) c2Detection
            = (storeSet [] ("LEARNED_" ++ "20260101" ++ "_" ++ toString 0) p, 0 + 1)
          ∧ p.confidence_base = c2Detection.confidence * (9/10)
          ∧ p.time_window_minutes = ⌊c2Detection.duration_seconds / 60⌋ + 5
          ∧ p.detection_count = 1
          ∧ p.false_positive_count = 0
          ∧ p.sequence = extractSequence c2Detection.events
          ∧ (hasKey [] ("LEARNED_" ++ "20260101" ++ "_" ++ toString 0) = false →
              (storeSet [] ("LEARNED_" ++ "20260101" ++ "_" ++ toString 0) p).length
                = List.length ([] : Store) + 1))
      ∧ ((extractSequence c2Detection.events).length < 2 →
          learnStep (75/100) "20260101" "NOW" ([], 0) c2Detection = ([], 0))) :=
  ⟨⟨by norm_num [c2Detection], by decide, by norm_num [c2Detection], by decide⟩,
    learn_step_behavior (75/100) "20260101" "NOW" [] 0 c2Detection
      (by norm_num [c2Detection]) (by decide) (by norm_num [c2Detection])⟩

/-! ## C6: normalization — syscheck precedence and absent fields -/

/-- C6: whenever the raw record's file-integrity (`syscheck`) block carries a
path, the normalized record's `file_path` is that path, overriding any file
path extracted from the Windows event data; and every field all of whose raw
sources are missing comes out as `None`, never as the empty string. -/
theorem flatten_behavior (a : RawAlert) :
    (∀ ppath, a.syscheck_present = true → a.syscheck_path = some ppath →
      (flattenAlert a).file_path = PyVal.vstr ppath)
    ∧ ((a.win_present = false ∨ (a.win_targetFilename = none ∧ a.win_image = none)) →
      (a.syscheck_present = false ∨ a.syscheck_path = none) →
      (flattenAlert a).file_path = PyVal.vnone)
    ∧ ((a.win_present = false ∨ (a.win_user = none ∧ a.win_subjectUserName = none)) →
      (flattenAlert a).user = PyVal.vnone)
    ∧ ((a.win_present = false ∨ a.win_image = none) →
      (flattenAlert a).process_name = PyVal.vnone)
    ∧ ((a.win_present = false ∨ a.win_commandLine = none) →
      (flattenAlert a).process_cmdline = PyVal.vnone)
    ∧ ((a.win_present = false ∨ a.win_targetObject = none) →
      (flattenAlert a).registry_key = PyVal.vnone)
    ∧ ((a.win_present = false ∨ a.win_details = none) →
      (flattenAlert a).registry_value = PyVal.vnone)
    ∧ ((a.win_present = false ∨ a.win_parentImage = none) →
      (flattenAlert a).parent_process = PyVal.vnone)
    ∧ (a.timestamp = none → (flattenAlert a).timestamp = PyVal.vnone)
    ∧ (a.agent_name = none → (flattenAlert a).agent_name = PyVal.vnone)
    ∧ (a.rule_id = none → (flattenAlert a).rule_id = PyVal.vnone)
    ∧ ((a.mitre_present = false ∨ a.mitre_id = none) →
      (flattenAlert a).rule_mitre_id = PyVal.vnone) := by
  refine ⟨?_, ?_, ?_, ?_, ?_, ?_, ?_, ?_, ?_, ?_, ?_, ?_⟩
  · intro ppath hs hp
    by_cases hw : a.win_present <;> by_cases hm : a.mitre_present <;>
      simp [flattenAlert, hs, hp, hw, hm, pyOfOpt]
  · intro h1 h2
    by_cases hs : a.syscheck_present <;> by_cases hw : a.win_present <;>
      by_cases hm : a.mitre_present <;>
        rcases h1 with h1 | ⟨h1a, h1b⟩ <;> rcases h2 with h2 | h2 <;>
          simp_all [flattenAlert, pyOr2, pyOfOpt, pyTruthy]
  · intro h1
    by_cases hs : a.syscheck_present <;> by_cases hw : a.win_present <;>
      by_cases hm : a.mitre_present <;>
        rcases h1 with h1 | ⟨h1a, h1b⟩ <;>
          simp_all [flattenAlert, pyOr2, pyOfOpt, pyTruthy]
  · intro h1
    by_cases hs : a.syscheck_present <;> by_cases hw : a.win_present <;>
      by_cases hm : a.mitre_present <;>
        rcases h1 with h1 | h1 <;>
          simp_all [flattenAlert, lastSegOfTruthy, pyOfOpt, pyTruthy]
  · intro h1
    by_cases hs : a.syscheck_present <;> by_cases hw : a.win_present <;>
      by_cases hm : a.mitre_present <;>
        rcases h1 with h1 | h1 <;>
          simp_all [flattenAlert, pyOfOpt]
  · intro h1
    by_cases hs : a.syscheck_present <;> by_cases hw : a.win_present <;>
      by_cases hm : a.mitre_present <;>
        rcases h1 with h1 | h1 <;>
          simp_all [flattenAlert, pyOfOpt]
  · intro h1
    by_cases hs : a.syscheck_present <;> by_cases hw : a.win_present <;>
      by_cases hm : a.mitre_present <;>
        rcases h1 with h1 | h1 <;>
          simp_all [flattenAlert, pyOfOpt]
  · intro h1
    by_cases hs : a.syscheck_present <;> by_cases hw : a.win_present <;>
      by_cases hm : a.mitre_present <;>
        rcases h1 with h1 | h1 <;>
          simp_all [flattenAlert, lastSegOfTruthy, pyOfOpt, pyTruthy]
  · intro h1
    by_cases hs : a.syscheck_present <;> by_cases hw : a.win_present <;>
      by_cases hm : a.mitre_present <;>
        simp_all [flattenAlert, pyOfOpt]
  · intro h1
    by_cases hs : a.syscheck_present <;> by_cases hw : a.win_present <;>
      by_cases hm : a.mitre_present <;>
        simp_all [flattenAlert, pyOfOpt]
  · intro h1
    by_cases hs : a.syscheck_present <;> by_cases hw : a.win_present <;>
      by_cases hm : a.mitre_present <;>
        simp_all [flattenAlert, pyOfOpt]
  · intro h1
    by_cases hs : a.syscheck_present <;> by_cases hw : a.win_present <;>
      by_cases hm : a.mitre_present <;>
        rcases h1 with h1 | h1 <;>
          simp_all [flattenAlert, pyOfOpt]

def c6Alert : RawAlert :=
  { win_present := true
    win_targetFilename := some "C:\\Users\\x\\dropped.exe"
    syscheck_present := true
    syscheck_path := some "C:\\Windows\\sys.exe" }

/-- C6 witness: a record carrying both a Windows-event file path and a
syscheck path; the syscheck path wins. -/
theorem flatten_behavior_witness :
    (flattenAlert c6Alert).file_path = PyVal.vstr "C:\\Windows\\sys.exe" :=
  (flatten_behavior c6Alert).1 "C:\\Windows\\sys.exe" rfl rfl

end PersistenceDetector
